import Mathlib

/-!
Verification development for the Beautiful-Christmas-Tree repository:
a shallow embedding of the ornament placement and state-interpolation
engine (src/components/Ornaments.tsx, SpiralLights, Snow, TopStar,
App.tsx, src/utils/idb.ts), with theorems settling the frozen claims.

Numbers are modelled as exact reals; JavaScript floating point is
abstracted to real arithmetic.
-/

set_option linter.unusedVariables false

noncomputable section

namespace Tree

/-- THREE.MathUtils.clamp(value, min, max) = Math.max(min, Math.min(max, value)). -/
def clampR (v lo hi : ℝ) : ℝ := max lo (min hi v)

/-- App.tsx line 8: clampValue(v, min, max) = Math.min(max, Math.max(min, v)). -/
def clampValue (v lo hi : ℝ) : ℝ := min hi (max lo v)

/-- Modelled from the spec: the repository imports `lerp` from `src/utils/math`,
a file absent from the snapshot.  The spec's transition rule
"current <- current + (target - current) * clamp(k*dt, 0, 1)" fixes its
behaviour: `lerp a b t = a + (b - a) * clamp(t, 0, 1)`. -/
def lerp (a b t : ℝ) : ℝ := a + (b - a) * clampR t 0 1

/-- A 3D vector (THREE.Vector3 with exact-real components). -/
structure V3 where
  x : ℝ
  y : ℝ
  z : ℝ

/-- THREE.Vector3.lerpVectors(a, b, t): unclamped componentwise a + (b - a) * t. -/
def lerpV3 (a b : V3) (t : ℝ) : V3 :=
  ⟨a.x + (b.x - a.x) * t, a.y + (b.y - a.y) * t, a.z + (b.z - a.z) * t⟩

/-- THREE.Vector3.multiplyScalar. -/
def V3.smul (a : V3) (s : ℝ) : V3 := ⟨a.x * s, a.y * s, a.z * s⟩

/-- THREE.MathUtils.mapLinear(x, a1, a2, b1, b2). -/
def mapLinear (x a1 a2 b1 b2 : ℝ) : ℝ := b1 + (x - a1) * (b2 - b1) / (a2 - a1)

/-- Euclidean distance between two points (THREE.Vector3.distanceTo). -/
def dist3 (a b : V3) : ℝ :=
  Real.sqrt ((a.x - b.x) ^ 2 + (a.y - b.y) ^ 2 + (a.z - b.z) ^ 2)

/-- Ornaments.tsx line 449: `const smooth = (t) => t * t * (3 - 2 * t)`. -/
def smooth (t : ℝ) : ℝ := t * t * (3 - 2 * t)

/-! ## Per-frame mix updates (one per component with a `currentMixRef`)

Each rendered frame with elapsed time `dt` advances the smoothed mix via
`currentMixRef.current = lerp(currentMixRef.current, mixFactor, speed)`
where `speed` is the component's convergence coefficient times `dt`. -/

/-- Ornaments.tsx `OrnamentMesh` useFrame (lines 568-569): `speed = 0.9 * delta`. -/
def ornamentMeshMixStep (current target dt : ℝ) : ℝ := lerp current target (0.9 * dt)

/-- Ornaments.tsx `GiftBoxMesh` useFrame (lines 492-493): `speed = 0.9 * delta`. -/
def giftBoxMixStep (current target dt : ℝ) : ℝ := lerp current target (0.9 * dt)

/-- Ornaments.tsx `PhotoFrameMesh` useFrame (lines 328-329): `speed = 0.8 * delta`. -/
def photoFrameMixStep (current target dt : ℝ) : ℝ := lerp current target (0.8 * dt)

/-- SpiralLights useFrame: `speed = 2.0 * delta`. -/
def spiralLightsMixStep (current target dt : ℝ) : ℝ := lerp current target (2.0 * dt)

/-- Snow.tsx line 216: `lerp(currentMixRef.current, mixFactor, delta * 2.0)`. -/
def snowMixStep (current target dt : ℝ) : ℝ := lerp current target (dt * 2.0)

/-- TopStar.tsx lines 56-57: `speed = 2.0 * delta`. -/
def topStarMixStep (current target dt : ℝ) : ℝ := lerp current target (2.0 * dt)

/-- The interpolation rule asserted by the spec, with an explicit convergence
speed `k`: `current + (target - current) * clamp(k * dt, 0, 1)`. -/
def mixAdvance (k current target dt : ℝ) : ℝ :=
  current + (target - current) * clampR (k * dt) 0 1

/-! ## Initial values of the per-slot mix state (claim C6) -/

/-- Ornaments.tsx line 552: `const currentMixRef = useRef(mixFactor)`. -/
def ornamentMeshInitMix (mixFactor : ℝ) : ℝ := mixFactor

/-- Ornaments.tsx line 456 (`GiftBoxMesh`): `const currentMixRef = useRef(mixFactor)`. -/
def giftBoxInitMix (mixFactor : ℝ) : ℝ := mixFactor

/-- Ornaments.tsx line 278 (`PhotoFrameMesh`): `const currentMixRef = useRef(1)`. -/
def photoFrameInitMix (mixFactor : ℝ) : ℝ := 1

/-- SpiralLights line 21: `const currentMixRef = useRef(1)`. -/
def spiralLightsInitMix (mixFactor : ℝ) : ℝ := 1

/-! ## Deterministic spatial distributor (Ornaments.tsx `data` useMemo, lines 718-817)

`Math.random()` is modelled as an explicit stream `rnd : ℕ → ℝ` of draws,
indexed in the order the loop body consumes them for one slot. -/

/-- Ornament type tags (`type` prop of `Ornaments`). -/
inductive OType
  | BALL
  | BOX
  | STAR
  | CANDY
  | CRYSTAL
  | PHOTO
deriving DecidableEq

/-- Ornaments.tsx lines 670-680: phase-offset index per type. -/
def getTypeOffsetIndex : OType → ℕ
  | .BALL => 0
  | .BOX => 1
  | .STAR => 2
  | .CANDY => 3
  | .CRYSTAL => 4
  | .PHOTO => 5

/-- Ornaments.tsx line 722: `Math.PI * (3 - Math.sqrt(5))`. -/
def goldenAngle : ℝ := Real.pi * (3 - Real.sqrt 5)

/-- Ornaments.tsx line 745: `progress = Math.sqrt((i + 1) / count) * 0.9`. -/
def progress (i count : ℕ) : ℝ := Real.sqrt (((i : ℝ) + 1) / count) * 0.9

/-- Ornaments.tsx line 747: `r = progress * treeRadiusBase` with `treeRadiusBase = 7.5`. -/
def radiusAt (i count : ℕ) : ℝ := progress i count * 7.5

/-- Ornaments.tsx line 748: `y = apexY - progress * treeHeight` with `apexY = 9`,
`treeHeight = 18`. -/
def heightAt (i count : ℕ) : ℝ := 9 - progress i count * 18

/-- Ornaments.tsx line 758: `pushOut = (STAR or PHOTO) ? 1.15 : 1.08`. -/
def pushOut (ty : OType) : ℝ := if ty = .STAR ∨ ty = .PHOTO then 1.15 else 1.08

/-- Formed (target) position, Ornaments.tsx lines 745-759: polar-to-Cartesian
on the golden spiral, then `multiplyScalar(pushOut)` on the whole vector. -/
def targetPosition (ty : OType) (count i : ℕ) : V3 :=
  let r := radiusAt i count
  let theta := (i : ℝ) * goldenAngle + (getTypeOffsetIndex ty : ℝ) * (2 * Real.pi / 6)
  (V3.mk (r * Real.cos theta) (heightAt i count) (r * Real.sin theta)).smul (pushOut ty)

/-- Modelled from the spec: `randomVector3` lives in the missing `src/utils/math`;
the spec describes it as an "independent random 3D point inside a sphere/box of
a type-specific radius", so each of the three components is an independent draw
mapped from `[0,1)` onto `[-radius, radius)`. -/
def randomVector3 (radius d0 d1 d2 : ℝ) : V3 :=
  ⟨(d0 * 2 - 1) * radius, (d1 * 2 - 1) * radius, (d2 * 2 - 1) * radius⟩

/-- Chaos position, Ornaments.tsx lines 761-776: photos get a deterministic wide
spiral (radius 18, height banded over a 12 range); other types draw
`randomVector3(25)` (three stream draws, indices 0-2). -/
def chaosPosition (ty : OType) (count i : ℕ) (rnd : ℕ → ℝ) : V3 :=
  if ty = .PHOTO then
    let chaosY := ((i : ℝ) / count - 0.5) * 12
    let chaosTheta := (i : ℝ) * goldenAngle
    ⟨18 * Real.cos chaosTheta, chaosY, 18 * Real.sin chaosTheta⟩
  else randomVector3 25 (rnd 0) (rnd 1) (rnd 2)

/-- The static per-slot tuple built by the `data` useMemo (the shape of
`OrnamentData`, Ornaments.tsx lines 6-14; the color is recorded as the chosen
palette index). -/
structure SlotData where
  chaosPos : V3
  targetPos : V3
  rot : V3
  colorIdx : ℕ
  targetScale : V3
  chaosScale : V3
  chaosTilt : ℝ

/-- One iteration of the `data` loop (Ornaments.tsx lines 733-815) for slot `i`.
Stream indices follow the statement order of the `Math.random()` calls: draws
0-2 feed `randomVector3` (non-photo only, so `base = 3` there and `0` for
photos), `base` the color pick, `base+1` the scale jitter, `base+2 .. base+4`
the box aspect (BOX), `base+2` the chaos photo inflation (PHOTO), and the final
two draws the rotation Euler. -/
def slotData (ty : OType) (count i : ℕ) (scale : ℝ) (colorsLen : ℕ) (rnd : ℕ → ℝ) :
    SlotData :=
  let base : ℕ := if ty = .PHOTO then 0 else 3
  let tilt : ℝ := if ty = .PHOTO then (((i % 5 : ℕ) : ℝ) - 2) * 0.15 else 0
  let randScale := rnd (base + 1) * 0.4 + 0.8
  let baseScaleVec : V3 :=
    match ty with
    | .CANDY => ⟨0.7, 0.7, 0.7⟩
    | .CRYSTAL => ⟨0.6, 0.6, 0.6⟩
    | .STAR => ⟨0.7, 0.7, 0.7⟩
    | .BOX => ⟨1.0 + rnd (base + 2) * 0.3, 0.7 + rnd (base + 3) * 0.4,
              1.0 + rnd (base + 4) * 0.3⟩
    | _ => ⟨1, 1, 1⟩
  let tScale := baseScaleVec.smul (scale * randScale)
  let cScale := if ty = .PHOTO then tScale.smul (3.5 + rnd (base + 2) * 1.5) else tScale
  let rotBase := base + 2 + (if ty = .BOX then 3 else 0) + (if ty = .PHOTO then 1 else 0)
  { chaosPos := chaosPosition ty count i rnd
    targetPos := targetPosition ty count i
    rot := ⟨rnd rotBase * Real.pi, rnd (rotBase + 1) * Real.pi, 0⟩
    colorIdx := ⌊rnd base * (colorsLen : ℝ)⌋₊
    targetScale := tScale
    chaosScale := cScale
    chaosTilt := tilt }

/-! ## Per-type pose composer (the useFrame bodies) -/

/-- Outcome of the rotation assignment in a frame: either an explicit Euler
triple was set, or the mesh was `lookAt`-billboarded toward the vertical axis
through the scene center (then rolled by `rotateZ roll`). -/
inductive RotOut
  | euler (e : V3)
  | lookAxis (roll : ℝ)

/-- Per-frame outputs of `OrnamentMesh`/`GiftBoxMesh` (mix state, position,
scale, rotation action). -/
structure OrnFrameOut where
  mix : ℝ
  pos : V3
  scl : V3
  rotOut : RotOut

/-- `OrnamentMesh` useFrame body (Ornaments.tsx lines 566-590): advance the mix
at speed 0.9, ease with `smooth`, lerp position/scale, and pick the rotation
branch (STAR/CRYSTAL billboard above 0.8, tumble below 0.5, else the slot's
fixed rotation). -/
def ornamentMeshFrame (ty : OType) (item : SlotData) (current target dt : ℝ) :
    OrnFrameOut :=
  let c := ornamentMeshMixStep current target dt
  let t := smooth c
  let rotOut :=
    if ty = .STAR ∧ t > 0.8 then RotOut.lookAxis (Real.pi / 2)
    else if ty = .CRYSTAL ∧ t > 0.8 then RotOut.lookAxis 0
    else if t < 0.5 then
      RotOut.euler ⟨item.rot.x + dt * 0.5, item.rot.y + dt * 0.5, item.rot.z⟩
    else RotOut.euler item.rot
  { mix := c
    pos := lerpV3 item.chaosPos item.targetPos t
    scl := lerpV3 item.chaosScale item.targetScale t
    rotOut := rotOut }

/-- `GiftBoxMesh` useFrame body (Ornaments.tsx lines 490-508): speed 0.9,
`smooth` ease, lerp position/scale, fixed rotation plus tumble below 0.5. -/
def giftBoxFrame (item : SlotData) (current target dt : ℝ) : OrnFrameOut :=
  let c := giftBoxMixStep current target dt
  let t := smooth c
  { mix := c
    pos := lerpV3 item.chaosPos item.targetPos t
    scl := lerpV3 item.chaosScale item.targetScale t
    rotOut :=
      if t < 0.5 then
        RotOut.euler ⟨item.rot.x + dt * 0.5, item.rot.y + dt * 0.5, item.rot.z⟩
      else RotOut.euler item.rot }

/-- Which way a photo frame was turned this frame: toward the camera, or
outward from the tree center (`lookAt(0, y, 0)` then `rotateY(π)`). -/
inductive Facing
  | camera
  | outward
deriving DecidableEq

/-- Per-frame outputs of `PhotoFrameMesh`. -/
structure PhotoFrameOut where
  mix : ℝ
  easedT : ℝ
  pos : V3
  scl : V3
  emissive : ℝ
  facing : Facing
  tilt : ℝ

/-- `PhotoFrameMesh` useFrame body (Ornaments.tsx lines 326-382): speed 0.8,
ease `t = tRaw ^ 0.6`, lerp position/scale, responsive and camera-distance
scale factors, emissive ramp, camera/outward facing split at 0.8, and the inner
tilt lerped toward its branch target at the same `speed`.  The enclosing scene
group's world transform is taken as the identity, so the group's world position
is the position set this frame. -/
def photoFrameFrame (item : SlotData) (current target dt viewportW : ℝ) (cam : V3)
    (tiltPrev : ℝ) : PhotoFrameOut :=
  let speed := 0.8 * dt
  let c := photoFrameMixStep current target dt
  let t := c ^ (0.6 : ℝ)
  let pos := lerpV3 item.chaosPos item.targetPos t
  let isSmallScreen := viewportW < 22
  let responsiveBaseScale := if isSmallScreen then 0.6 else 1.0
  let scl1 := (lerpV3 item.chaosScale item.targetScale t).smul responsiveBaseScale
  let effectStrength := 1.0 - t
  let distToCamera := dist3 pos cam
  let maxZoom := if isSmallScreen then 1.1 else 1.5
  { mix := c
    easedT := t
    pos := pos
    scl :=
      if t < 0.99 then
        scl1.smul (lerp 1.0 (mapLinear distToCamera 10 60 maxZoom 0.6) effectStrength)
      else scl1
    emissive :=
      if t < 0.99 then max 0.2 (mapLinear distToCamera 12 50 0.9 0.2) * effectStrength
      else 0.25
    facing := if t > 0.8 then Facing.outward else Facing.camera
    tilt := lerp tiltPrev (if t > 0.8 then 0 else item.chaosTilt) speed }

/-! ## Pointer focus gate (PhotoFrameMesh onPointerDown, Ornaments.tsx lines 387-400) -/

/-- The acceptance condition of the `onPointerDown` closure.  Both the smoothed
`currentMixRef` and the `mixFactor` prop are in scope there; line 389 tests
`mixFactor < 0.25`, so the first argument is not read. -/
def photoPointerAccepts (currentMix mixFactor : ℝ) : Prop := mixFactor < 0.25

/-- What an accepted pointer-down reports to the host callback. -/
inductive FocusReport
  | ignored
  | projected (sx sy : ℝ)
  | clientFallback (cx cy : ℝ)
deriving DecidableEq

/-- The full `onPointerDown` handler: gate on callback/entry presence and
`mixFactor < 0.25`; if the group handle exists, project its world position
through the event camera (`project` maps world to normalized device
coordinates) and convert to screen pixels, else fall back to the pointer's
client coordinates. -/
def photoPointerDown (hasCb hasEntry : Bool) (currentMix mixFactor : ℝ)
    (groupWorld : Option V3) (project : V3 → V3) (innerW innerH cx cy : ℝ) :
    FocusReport :=
  if hasCb ∧ hasEntry ∧ mixFactor < 0.25 then
    match groupWorld with
    | some w =>
      let p := project w
      FocusReport.projected ((p.x * 0.5 + 0.5) * innerW) ((p.y * (-0.5) + 0.5) * innerH)
    | none => FocusReport.clientFallback cx cy
  else FocusReport.ignored

/-! ## Photo transforms, clamping and texture fallback -/

/-- A persisted photo transform (`PhotoTransform` in Ornaments.tsx lines 16-19,
offset flattened to two fields). -/
structure PhotoTransform where
  scale : ℝ
  ox : ℝ
  oy : ℝ

/-- usePhotoTexture line 229: `clamp(transform?.scale ?? 1, 0.5, 2.5)`. -/
def safeScale (t : Option PhotoTransform) : ℝ :=
  clampR ((t.map PhotoTransform.scale).getD 1) 0.5 2.5

/-- usePhotoTexture line 230: `clamp(transform?.offset?.x ?? 0, -0.6, 0.6)`. -/
def safeOffsetX (t : Option PhotoTransform) : ℝ :=
  clampR ((t.map PhotoTransform.ox).getD 0) (-0.6) 0.6

/-- usePhotoTexture line 231: `clamp(transform?.offset?.y ?? 0, -0.6, 0.6)`. -/
def safeOffsetY (t : Option PhotoTransform) : ℝ :=
  clampR ((t.map PhotoTransform.oy).getD 0) (-0.6) 0.6

/-- App.tsx lines 523-528 (`handleSaveSignature`): the transform stored for a
photo key, each component clamped with `clampValue`. -/
def savedTransform (focusScale ox oy : ℝ) : PhotoTransform :=
  ⟨clampValue focusScale 0.5 2.5, clampValue ox (-0.6) 0.6, clampValue oy (-0.6) 0.6⟩

/-- The texture value produced for a photo entry: either a canvas with the
image drawn at the clamped transform, or the generated fallback placeholder
(`createFallbackTexture`, Ornaments.tsx lines 158-175). -/
inductive Texture
  | canvas (w h : ℕ) (scale ox oy : ℝ)
  | fallbackLabel (label : String)

/-- Result of `loadImageElement` (Ornaments.tsx lines 177-204): the image's
dimensions on success, a message on failure. -/
inductive LoadOutcome
  | ok (w h : ℕ)
  | failed (msg : String)

/-- The texture `usePhotoTexture` ends up setting for a given load outcome
(Ornaments.tsx lines 206-263, non-cancelled path): on success, a canvas drawn
with the clamped transform; on any load/decode failure, the catch branch
substitutes `createFallbackTexture('加载失败')`. -/
def usePhotoTextureResult (r : LoadOutcome) (t : Option PhotoTransform) : Texture :=
  match r with
  | .ok w h => .canvas w h (safeScale t) (safeOffsetX t) (safeOffsetY t)
  | .failed _ => .fallbackLabel "加载失败"

/-! ## Image cache (src/utils/idb.ts, `saveImagesToCacheWithKeys`)

The object store is modelled as a list of key/createdAt records (the blob and
the object URL derived from it play no role in the claim).  The generated keys
`timestamp-idx-randomhex` are passed in as the `keys` parameter.  `getAll`
order is modelled as store order; none of the proved properties depend on the
tie-breaking order of equal `createdAt` values. -/

structure CacheEntry where
  key : String
  createdAt : ℤ
deriving DecidableEq

/-- IDBObjectStore.put: replace the record at the key if present, else add. -/
def putEntry (cache : List CacheEntry) (e : CacheEntry) : List CacheEntry :=
  if cache.any (fun c => c.key == e.key) then
    cache.map (fun c => if c.key == e.key then e else c)
  else cache ++ [e]

def putAll (cache : List CacheEntry) (es : List CacheEntry) : List CacheEntry :=
  es.foldl putEntry cache

/-- The comparator `(a, b) => b.createdAt - a.createdAt`: newest first. -/
def newerFirst (a b : CacheEntry) : Prop := b.createdAt ≤ a.createdAt

instance : DecidableRel newerFirst := fun a b => inferInstanceAs (Decidable (_ ≤ _))

instance : IsTotal CacheEntry newerFirst := ⟨fun a b => le_total b.createdAt a.createdAt⟩

instance : IsTrans CacheEntry newerFirst := ⟨fun _ _ _ h1 h2 => le_trans h2 h1⟩

/-- `records.sort((a, b) => b.value.createdAt - a.value.createdAt)` (JS sort is
stable; insertion sort is a stable sort). -/
def sortNewestFirst (l : List CacheEntry) : List CacheEntry := l.insertionSort newerFirst

/-- The records written by the save loop: key `keys[idx]`,
`createdAt = timestamp + idx` (idb.ts lines 100-106). -/
def newEntries (keys : List String) (timestamp : ℤ) (n : ℕ) : List CacheEntry :=
  (List.range n).map fun idx => ⟨keys.getD idx "", timestamp + idx⟩

/-- idb.ts lines 93-127, `saveImagesToCacheWithKeys`: early-return `[]` on an
empty file list; otherwise put all new records, sort everything newest first,
delete the keys beyond `limit`, and return the newest `limit` records.  The
result is the pair (store contents afterwards, returned list). -/
def saveImagesToCacheWithKeys (cache : List CacheEntry) (nFiles : ℕ)
    (keys : List String) (timestamp : ℤ) (limit : ℕ) :
    List CacheEntry × List CacheEntry :=
  if nFiles = 0 then (cache, [])
  else
    let cache1 := putAll cache (newEntries keys timestamp nFiles)
    let sorted := sortNewestFirst cache1
    let toDelete := (sorted.drop limit).map CacheEntry.key
    (cache1.filter (fun c => !(toDelete.contains c.key)), sorted.take limit)

/-- A concrete slot tuple used to instantiate general theorems. -/
def sampleSlot : SlotData :=
  { chaosPos := ⟨0, 0, 0⟩
    targetPos := ⟨1, 2, 3⟩
    rot := ⟨1, 2, 0⟩
    colorIdx := 0
    targetScale := ⟨1, 1, 1⟩
    chaosScale := ⟨4, 4, 4⟩
    chaosTilt := 0.3 }

/-! ## Helper lemmas -/

theorem le_clampR (v lo hi : ℝ) : lo ≤ clampR v lo hi := le_max_left _ _

theorem clampR_le (v lo hi : ℝ) (h : lo ≤ hi) : clampR v lo hi ≤ hi :=
  max_le h (min_le_left _ _)

theorem clampValue_le (v lo hi : ℝ) : clampValue v lo hi ≤ hi := min_le_left _ _

theorem le_clampValue (v lo hi : ℝ) (h : lo ≤ hi) : lo ≤ clampValue v lo hi :=
  le_min h (le_max_left _ _)

/-! ## Claim theorems -/

/-- Claim C1, counterexample: the claim says every non-photo primitive advances
its mix with convergence speed k = 2.0; but `OrnamentMesh` (the renderer of
ball, star, candy and crystal primitives) advances with `speed = 0.9 * delta`,
which at current = 0, target = 1, dt = 1 yields 0.9, not the 1 that the claimed
rule with k = 2.0 yields. -/
theorem C1_counterexample :
    ornamentMeshMixStep 0 1 1 ≠ mixAdvance 2.0 0 1 1 := by
  simp only [ornamentMeshMixStep, mixAdvance, lerp, clampR]
  norm_num

/-- Claim C1, amended: every rendered frame advances each primitive's mix by
current + (target - current) * clamp(k * dt, 0, 1), where k = 0.8 for photo
frames, k = 0.9 for ornament meshes (ball/star/candy/crystal) and gift boxes,
and k = 2.0 for the spiral lights, the snow and the top star. -/
theorem C1_mix_rates (current target dt : ℝ) :
    photoFrameMixStep current target dt = mixAdvance 0.8 current target dt ∧
    ornamentMeshMixStep current target dt = mixAdvance 0.9 current target dt ∧
    giftBoxMixStep current target dt = mixAdvance 0.9 current target dt ∧
    spiralLightsMixStep current target dt = mixAdvance 2.0 current target dt ∧
    snowMixStep current target dt = mixAdvance 2.0 current target dt ∧
    topStarMixStep current target dt = mixAdvance 2.0 current target dt := by
  refine ⟨rfl, rfl, rfl, rfl, ?_, rfl⟩
  simp only [snowMixStep, mixAdvance, lerp]
  rw [mul_comm dt 2.0]

/-- Claim C6, counterexample: the claim says every primitive type initializes
its interpolation state to the external target; but with external target 0,
`PhotoFrameMesh` and `SpiralLights` both initialize `currentMixRef` to the
constant 1. -/
theorem C6_counterexample :
    photoFrameInitMix 0 ≠ 0 ∧ spiralLightsInitMix 0 ≠ 0 := by
  constructor <;> · simp only [photoFrameInitMix, spiralLightsInitMix]; norm_num

/-- Claim C6, amended: `OrnamentMesh` and `GiftBoxMesh` initialize `currentMix`
to the external target `mixFactor` (so their first frame matches the target
pose), while `PhotoFrameMesh` and `SpiralLights` initialize it to the constant
1 (the formed pole) regardless of the target. -/
theorem C6_init_mix (m : ℝ) :
    ornamentMeshInitMix m = m ∧ giftBoxInitMix m = m ∧
    photoFrameInitMix m = 1 ∧ spiralLightsInitMix m = 1 :=
  ⟨rfl, rfl, rfl, rfl⟩

/-- Claim C8: externally supplied photo transforms are clamped at the point of
use — scale to the interval from 0.5 to 2.5 and both offsets to the interval
from -0.6 to 0.6 — in `usePhotoTexture` and in the App save path, for arbitrary
inputs; in particular scale 99 clamps to 2.5 and offset 5 clamps to 0.6 on both
paths. -/
theorem C8_transform_clamping (t : Option PhotoTransform) (s x y : ℝ) :
    (0.5 ≤ safeScale t ∧ safeScale t ≤ 2.5) ∧
    (-0.6 ≤ safeOffsetX t ∧ safeOffsetX t ≤ 0.6) ∧
    (-0.6 ≤ safeOffsetY t ∧ safeOffsetY t ≤ 0.6) ∧
    (0.5 ≤ (savedTransform s x y).scale ∧ (savedTransform s x y).scale ≤ 2.5) ∧
    (-0.6 ≤ (savedTransform s x y).ox ∧ (savedTransform s x y).ox ≤ 0.6) ∧
    (-0.6 ≤ (savedTransform s x y).oy ∧ (savedTransform s x y).oy ≤ 0.6) ∧
    safeScale (some ⟨99, 5, 0⟩) = 2.5 ∧ safeOffsetX (some ⟨99, 5, 0⟩) = 0.6 ∧
    (savedTransform 99 5 0).scale = 2.5 ∧ (savedTransform 99 5 0).ox = 0.6 := by
  refine ⟨⟨le_clampR _ _ _, clampR_le _ _ _ (by norm_num)⟩,
    ⟨le_clampR _ _ _, clampR_le _ _ _ (by norm_num)⟩,
    ⟨le_clampR _ _ _, clampR_le _ _ _ (by norm_num)⟩,
    ⟨le_clampValue _ _ _ (by norm_num), clampValue_le _ _ _⟩,
    ⟨le_clampValue _ _ _ (by norm_num), clampValue_le _ _ _⟩,
    ⟨le_clampValue _ _ _ (by norm_num), clampValue_le _ _ _⟩, ?_, ?_, ?_, ?_⟩ <;>
    · simp only [safeScale, safeOffsetX, savedTransform, clampR, clampValue,
        Option.map_some, Option.getD_some]
      norm_num

/-- Claim C9: for every load outcome, the photo texture path produces a
texture — on any load or decode failure it substitutes the generated fallback
placeholder — and no error value ever reaches the caller (the result type has
no error case). -/
theorem C9_fallback_texture (r : LoadOutcome) (t : Option PhotoTransform) :
    (∀ msg, usePhotoTextureResult (.failed msg) t = .fallbackLabel "加载失败") ∧
    ((∃ w h, usePhotoTextureResult r t
        = .canvas w h (safeScale t) (safeOffsetX t) (safeOffsetY t)) ∨
      usePhotoTextureResult r t = .fallbackLabel "加载失败") := by
  refine ⟨fun msg => rfl, ?_⟩
  cases r with
  | ok w h => exact Or.inl ⟨w, h, rfl⟩
  | failed msg => exact Or.inr rfl

/-- Claim C2: for indices below `count`, the distributor computes
progress = sqrt((i+1)/count) * 0.9, radius = progress * 7.5 and
height = 9 - progress * 18; progress is monotonically non-decreasing in the
index and lies in the interval from 0 to 0.9; and count = 1 yields progress
0.9, radius 6.75 and height -7.2. -/
theorem C2_progress_layout (count i j : ℕ) (hij : i ≤ j) (hj : j < count) :
    progress i count ≤ progress j count ∧
    0 ≤ progress i count ∧ progress i count ≤ 0.9 ∧
    radiusAt i count = progress i count * 7.5 ∧
    heightAt i count = 9 - progress i count * 18 ∧
    progress 0 1 = 0.9 ∧ radiusAt 0 1 = 6.75 ∧ heightAt 0 1 = -7.2 := by
  have hc : (0 : ℝ) < count := by
    have : 0 < count := by omega
    exact_mod_cast this
  have hij' : ((i : ℝ) + 1) / count ≤ ((j : ℝ) + 1) / count := by
    apply div_le_div_of_nonneg_right ?_ hc.le
    have : (i : ℝ) ≤ j := Nat.cast_le.mpr hij
    linarith
  have hone : ((i : ℝ) + 1) / count ≤ 1 := by
    rw [div_le_one hc]
    have : i + 1 ≤ count := by omega
    exact_mod_cast this
  have h01 : progress 0 1 = 0.9 := by
    simp [progress]
  refine ⟨?_, ?_, ?_, rfl, rfl, h01, ?_, ?_⟩
  · exact mul_le_mul_of_nonneg_right (Real.sqrt_le_sqrt hij') (by norm_num)
  · exact mul_nonneg (Real.sqrt_nonneg _) (by norm_num)
  · have := Real.sqrt_le_one.mpr hone
    calc Real.sqrt (((i : ℝ) + 1) / count) * 0.9 ≤ 1 * 0.9 :=
          mul_le_mul_of_nonneg_right this (by norm_num)
      _ = 0.9 := by norm_num
  · rw [radiusAt, h01]; norm_num
  · rw [heightAt, h01]; norm_num

/-- Claim C2, witness at count = 5, i = 2, j = 3. -/
theorem C2_progress_layout_witness :
    2 ≤ 3 ∧ 3 < 5 ∧
      (progress 2 5 ≤ progress 3 5 ∧
       0 ≤ progress 2 5 ∧ progress 2 5 ≤ 0.9 ∧
       radiusAt 2 5 = progress 2 5 * 7.5 ∧
       heightAt 2 5 = 9 - progress 2 5 * 18 ∧
       progress 0 1 = 0.9 ∧ radiusAt 0 1 = 6.75 ∧ heightAt 0 1 = -7.2) :=
  ⟨by decide, by decide, C2_progress_layout 5 2 3 (by decide) (by decide)⟩

/-- Claim C3, counterexample: the slot layout is not a pure function of
(i, type, count): with identical inputs (i = 0, type BALL, count = 1) but the
two random streams "all draws 0" and "all draws 1/2", the computed rotations
differ (the rotation Euler is `Math.random() * PI` per axis). -/
theorem C3_counterexample :
    (slotData .BALL 1 0 1 1 (fun _ => 0)).rot
      ≠ (slotData .BALL 1 0 1 1 (fun _ => (1 : ℝ) / 2)).rot := by
  intro h
  have hx := congrArg V3.x h
  simp only [slotData] at hx
  have : (0 : ℝ) * Real.pi = 1 / 2 * Real.pi := by simpa using hx
  nlinarith [Real.pi_pos]

/-- Claim C3, amended: the formed position of a slot is a pure function of
(i, type, count) — identical across arbitrary random streams, and equal to
`targetPosition` — and for photo slots the chaos position and chaos tilt are
likewise stream-independent; the full slot tuple (chaos position, scale pair,
rotation, color) is deterministic once the random draws frozen at construction
are fixed. -/
theorem C3_layout_purity (ty : OType) (count i : ℕ) (scale : ℝ) (colorsLen : ℕ)
    (r1 r2 : ℕ → ℝ) :
    (slotData ty count i scale colorsLen r1).targetPos
      = (slotData ty count i scale colorsLen r2).targetPos ∧
    (slotData ty count i scale colorsLen r1).targetPos = targetPosition ty count i ∧
    (ty = .PHOTO →
      (slotData ty count i scale colorsLen r1).chaosPos
        = (slotData ty count i scale colorsLen r2).chaosPos ∧
      (slotData ty count i scale colorsLen r1).chaosTilt
        = (slotData ty count i scale colorsLen r2).chaosTilt) ∧
    (r1 = r2 →
      slotData ty count i scale colorsLen r1 = slotData ty count i scale colorsLen r2) := by
  refine ⟨rfl, rfl, ?_, fun h => by rw [h]⟩
  rintro rfl
  exact ⟨by simp [slotData, chaosPosition], by simp [slotData]⟩

/-- Claim C3, amended, witness: photo slot 1 of 4, with the streams "all 0" and
"all 1/2". -/
theorem C3_layout_purity_witness :
    (slotData .PHOTO 4 1 1 2 (fun _ => 0)).chaosPos
      = (slotData .PHOTO 4 1 1 2 (fun _ => (1 : ℝ) / 2)).chaosPos ∧
    (slotData .PHOTO 4 1 1 2 (fun _ => 0)).chaosTilt
      = (slotData .PHOTO 4 1 1 2 (fun _ => (1 : ℝ) / 2)).chaosTilt :=
  (C3_layout_purity .PHOTO 4 1 1 2 (fun _ => 0) (fun _ => (1 : ℝ) / 2)).2.2.1 rfl

/-- Claim C4: the composed position every frame is
lerp(chaosPosition, formedPosition, ease(t)) with the type-specific ease —
smoothstep t*t*(3-2t) of the advanced mix for ornament meshes (ball, star,
candy, crystal) and gift boxes, and t^0.6 for photo frames. -/
theorem C4_position_composition (ty : OType) (item : SlotData)
    (current target dt viewportW : ℝ) (cam : V3) (tiltPrev : ℝ) :
    (ornamentMeshFrame ty item current target dt).pos
      = lerpV3 item.chaosPos item.targetPos
          (smooth (ornamentMeshFrame ty item current target dt).mix) ∧
    (giftBoxFrame item current target dt).pos
      = lerpV3 item.chaosPos item.targetPos
          (smooth (giftBoxFrame item current target dt).mix) ∧
    (photoFrameFrame item current target dt viewportW cam tiltPrev).pos
      = lerpV3 item.chaosPos item.targetPos
          ((photoFrameFrame item current target dt viewportW cam tiltPrev).mix
            ^ (0.6 : ℝ)) ∧
    smooth (ornamentMeshFrame ty item current target dt).mix
      = smooth (ornamentMeshMixStep current target dt) ∧
    (photoFrameFrame item current target dt viewportW cam tiltPrev).easedT
      = (photoFrameMixStep current target dt) ^ (0.6 : ℝ) :=
  ⟨rfl, rfl, rfl, rfl, rfl⟩

/-- Claim C5: writing t for the type-specific eased mix of the frame — generic
ornaments (and gift boxes) tumble, advancing rotation.x and rotation.y by
dt * 0.5 over the slot rotation, exactly while t < 0.5 and otherwise hold the
slot's fixed rotation; star and crystal meshes billboard toward the vertical
axis through the scene center exactly when t > 0.8 (stars with a Z roll of
pi/2); photo frames face the camera while t ≤ 0.8 and face outward from the
tree center when t > 0.8, the inner tilt lerped toward the branch target at
the same lag rate 0.8 * dt. -/
theorem C5_orientation_rules (ty : OType) (item : SlotData)
    (current target dt viewportW : ℝ) (cam : V3) (tiltPrev : ℝ) :
    (smooth (ornamentMeshMixStep current target dt) < 0.5 →
      (ornamentMeshFrame ty item current target dt).rotOut
        = RotOut.euler ⟨item.rot.x + dt * 0.5, item.rot.y + dt * 0.5, item.rot.z⟩) ∧
    ((ty = .BALL ∨ ty = .CANDY) →
      0.5 ≤ smooth (ornamentMeshMixStep current target dt) →
      (ornamentMeshFrame ty item current target dt).rotOut = RotOut.euler item.rot) ∧
    ((ty = .STAR ∨ ty = .CRYSTAL) →
      0.5 ≤ smooth (ornamentMeshMixStep current target dt) →
      smooth (ornamentMeshMixStep current target dt) ≤ 0.8 →
      (ornamentMeshFrame ty item current target dt).rotOut = RotOut.euler item.rot) ∧
    (ty = .STAR → 0.8 < smooth (ornamentMeshMixStep current target dt) →
      (ornamentMeshFrame ty item current target dt).rotOut
        = RotOut.lookAxis (Real.pi / 2)) ∧
    (ty = .CRYSTAL → 0.8 < smooth (ornamentMeshMixStep current target dt) →
      (ornamentMeshFrame ty item current target dt).rotOut = RotOut.lookAxis 0) ∧
    (smooth (giftBoxMixStep current target dt) < 0.5 →
      (giftBoxFrame item current target dt).rotOut
        = RotOut.euler ⟨item.rot.x + dt * 0.5, item.rot.y + dt * 0.5, item.rot.z⟩) ∧
    (0.5 ≤ smooth (giftBoxMixStep current target dt) →
      (giftBoxFrame item current target dt).rotOut = RotOut.euler item.rot) ∧
    (0.8 < (photoFrameMixStep current target dt) ^ (0.6 : ℝ) →
      (photoFrameFrame item current target dt viewportW cam tiltPrev).facing
          = Facing.outward ∧
      (photoFrameFrame item current target dt viewportW cam tiltPrev).tilt
          = lerp tiltPrev 0 (0.8 * dt)) ∧
    ((photoFrameMixStep current target dt) ^ (0.6 : ℝ) ≤ 0.8 →
      (photoFrameFrame item current target dt viewportW cam tiltPrev).facing
          = Facing.camera ∧
      (photoFrameFrame item current target dt viewportW cam tiltPrev).tilt
          = lerp tiltPrev item.chaosTilt (0.8 * dt)) := by
  refine ⟨fun h => ?_, fun hty h => ?_, fun hty h h8 => ?_, fun hty h8 => ?_,
    fun hty h8 => ?_, fun h => ?_, fun h => ?_, fun h8 => ?_, fun h8 => ?_⟩
  · have hn8 : ¬(0.8 < smooth (ornamentMeshMixStep current target dt)) := by linarith
    simp [ornamentMeshFrame, h, hn8]
  · rcases hty with rfl | rfl <;> simp [ornamentMeshFrame, not_lt.mpr h]
  · rcases hty with rfl | rfl <;>
      simp [ornamentMeshFrame, not_lt.mpr h, not_lt.mpr h8]
  · subst hty; simp [ornamentMeshFrame, h8]
  · subst hty; simp [ornamentMeshFrame, h8]
  · simp [giftBoxFrame, h]
  · simp [giftBoxFrame, not_lt.mpr h]
  · constructor <;> simp [photoFrameFrame, h8]
  · constructor <;> simp [photoFrameFrame, not_lt.mpr h8]

/-- Claim C5, witness: a ball at eased mix 0 tumbles, and a photo frame at
eased mix 1 faces outward with its tilt lerped toward 0. -/
theorem C5_orientation_rules_witness :
    smooth (ornamentMeshMixStep 0 0 0) < 0.5 ∧
    (ornamentMeshFrame .BALL sampleSlot 0 0 0).rotOut
      = RotOut.euler ⟨sampleSlot.rot.x + 0 * 0.5, sampleSlot.rot.y + 0 * 0.5,
          sampleSlot.rot.z⟩ ∧
    0.8 < (photoFrameMixStep 1 1 0) ^ (0.6 : ℝ) ∧
    (photoFrameFrame sampleSlot 1 1 0 30 ⟨0, 0, 30⟩ 0.2).facing = Facing.outward ∧
    (photoFrameFrame sampleSlot 1 1 0 30 ⟨0, 0, 30⟩ 0.2).tilt = lerp 0.2 0 (0.8 * 0) := by
  have h1 : smooth (ornamentMeshMixStep 0 0 0) < 0.5 := by
    norm_num [ornamentMeshMixStep, lerp, smooth, clampR]
  have h2 : (0.8 : ℝ) < (photoFrameMixStep 1 1 0) ^ (0.6 : ℝ) := by
    have hm : photoFrameMixStep 1 1 0 = 1 := by
      norm_num [photoFrameMixStep, lerp, clampR]
    rw [hm, Real.one_rpow]; norm_num
  have happ := (C5_orientation_rules .PHOTO sampleSlot 1 1 0 30 ⟨0, 0, 30⟩ 0.2).2.2.2.2.2.2.2.1 h2
  exact ⟨h1, (C5_orientation_rules .BALL sampleSlot 0 0 0 30 ⟨0, 0, 30⟩ 0.2).1 h1,
    h2, happ.1, happ.2⟩

/-- Claim C7, counterexample: acceptance of a photo-frame click is gated on the
external target `mixFactor`, not on the smoothed mix value: with the smoothed
mix at 0.9 (≥ 0.25, mid-flight toward chaos) and `mixFactor` at 0, the click
is accepted, contradicting "accepted only when the mix value t is below
0.25". -/
theorem C7_counterexample :
    photoPointerAccepts 0.9 0 ∧
    photoPointerDown true true 0.9 0 (some ⟨0, 0, 0⟩) id 100 100 5 5
      ≠ FocusReport.ignored ∧
    ¬ ((0.9 : ℝ) < 0.25) := by
  have h : (0 : ℝ) < 0.25 := by norm_num
  refine ⟨by norm_num [photoPointerAccepts], ?_, by norm_num⟩
  simp [photoPointerDown, h]

/-- Claim C7, amended: a pointer click on a photo frame is accepted as a focus
request exactly when the callback and entry are present and the external
target `mixFactor` is below 0.25 (the smoothed per-frame mix is not
consulted); every accepted focus with a live group handle reports the 2D
screen projection of the slot's world position — ndc.x mapped through
(x * 0.5 + 0.5) * innerWidth and ndc.y through (y * -0.5 + 0.5) *
innerHeight — to the host callback. -/
theorem C7_focus_gate (hasCb hasEntry : Bool) (currentMix mixFactor : ℝ)
    (w : V3) (project : V3 → V3) (innerW innerH cx cy : ℝ) :
    (photoPointerAccepts currentMix mixFactor ↔ mixFactor < 0.25) ∧
    (photoPointerDown hasCb hasEntry currentMix mixFactor (some w) project
        innerW innerH cx cy ≠ FocusReport.ignored
      ↔ (hasCb ∧ hasEntry ∧ mixFactor < 0.25)) ∧
    (mixFactor < 0.25 →
      photoPointerDown true true currentMix mixFactor (some w) project
          innerW innerH cx cy
        = FocusReport.projected (((project w).x * 0.5 + 0.5) * innerW)
            (((project w).y * (-0.5) + 0.5) * innerH)) := by
  refine ⟨Iff.rfl, ?_, fun h => ?_⟩
  · by_cases hc : (hasCb : Prop) ∧ (hasEntry : Prop) ∧ mixFactor < 0.25
    · simp only [photoPointerDown, if_pos hc]
      simp [hc.1, hc.2.1, hc.2.2]
    · simp only [photoPointerDown, if_neg hc]
      simp [hc]
  · simp [photoPointerDown, h]

/-- Claim C7, amended, witness: target 0 is below 0.25 and the projected
screen origin is reported. -/
theorem C7_focus_gate_witness :
    (0 : ℝ) < 0.25 ∧
    photoPointerDown true true 0 0 (some ⟨1, 1, 1⟩) id 100 200 5 5
      = FocusReport.projected (((id (⟨1, 1, 1⟩ : V3)).x * 0.5 + 0.5) * 100)
          (((id (⟨1, 1, 1⟩ : V3)).y * (-0.5) + 0.5) * 200) :=
  ⟨by norm_num,
    (C7_focus_gate true true 0 0 ⟨1, 1, 1⟩ id 100 200 5 5).2.2 (by norm_num)⟩

/-- Claim C10, counterexample: with an empty file list, the function
early-returns without enforcing the limit, so a pre-existing cache of two
records stays at two records even though limit = 1, and the returned list is
empty rather than the newest record. -/
theorem C10_counterexample :
    (saveImagesToCacheWithKeys [⟨"a", 0⟩, ⟨"b", 1⟩] 0 [] 0 1).1
      = [⟨"a", 0⟩, ⟨"b", 1⟩] ∧
    (saveImagesToCacheWithKeys [⟨"a", 0⟩, ⟨"b", 1⟩] 0 [] 0 1).2 = [] ∧
    1 < (saveImagesToCacheWithKeys [⟨"a", 0⟩, ⟨"b", 1⟩] 0 [] 0 1).1.length := by
  refine ⟨rfl, rfl, ?_⟩
  show 1 < 2
  norm_num

/-- Claim C10, amended: provided the file list is nonempty (the empty case
early-returns leaving the cache untouched) and the store keys after the puts
are distinct, after `saveImagesToCacheWithKeys` resolves the cache holds at
most `limit` records, those records are exactly (a permutation of) the first
`limit` of the records sorted newest-first, each kept record's createdAt is at
least every deleted record's, and the returned list is exactly that
newest-first prefix — sorted by descending createdAt, each record paired with
its key. -/
theorem C10_cache_limit (cache : List CacheEntry) (nFiles : ℕ) (keys : List String)
    (timestamp : ℤ) (limit : ℕ) (hn : nFiles ≠ 0)
    (hnd : ((putAll cache (newEntries keys timestamp nFiles)).map CacheEntry.key).Nodup) :
    (saveImagesToCacheWithKeys cache nFiles keys timestamp limit).1.length ≤ limit ∧
    (saveImagesToCacheWithKeys cache nFiles keys timestamp limit).1.Perm
      ((sortNewestFirst (putAll cache (newEntries keys timestamp nFiles))).take limit) ∧
    (saveImagesToCacheWithKeys cache nFiles keys timestamp limit).2
      = (sortNewestFirst (putAll cache (newEntries keys timestamp nFiles))).take limit ∧
    List.Sorted newerFirst (saveImagesToCacheWithKeys cache nFiles keys timestamp limit).2 ∧
    (∀ e ∈ (saveImagesToCacheWithKeys cache nFiles keys timestamp limit).1,
      ∀ d ∈ (sortNewestFirst (putAll cache (newEntries keys timestamp nFiles))).drop limit,
        d.createdAt ≤ e.createdAt) := by
  have hsave : saveImagesToCacheWithKeys cache nFiles keys timestamp limit
      = ((putAll cache (newEntries keys timestamp nFiles)).filter
          (fun c => !(((sortNewestFirst (putAll cache
              (newEntries keys timestamp nFiles))).drop limit).map
              CacheEntry.key).contains c.key),
         (sortNewestFirst (putAll cache (newEntries keys timestamp nFiles))).take limit) := by
    simp [saveImagesToCacheWithKeys, hn]
  set L := putAll cache (newEntries keys timestamp nFiles) with hLdef
  set S := sortNewestFirst L with hSdef
  set p : CacheEntry → Bool :=
    fun c => !(((S.drop limit).map CacheEntry.key).contains c.key) with hpdef
  have hperm : S.Perm L := List.perm_insertionSort _ _
  have hsorted : List.Sorted newerFirst S := List.sorted_insertionSort _ _
  have hSnodup : (S.map CacheEntry.key).Nodup := (hperm.map CacheEntry.key).nodup_iff.mpr hnd
  have hsplit : S.map CacheEntry.key
      = (S.take limit).map CacheEntry.key ++ (S.drop limit).map CacheEntry.key := by
    rw [← List.map_append, List.take_append_drop]
  have hdisj : ∀ k ∈ (S.take limit).map CacheEntry.key,
      k ∉ (S.drop limit).map CacheEntry.key := by
    rw [hsplit, List.nodup_append] at hSnodup
    exact fun k hk hk' => hSnodup.2.2 hk hk'
  have hfilter_take : (S.take limit).filter p = S.take limit := by
    apply List.filter_eq_self.mpr
    intro a ha
    have hmem : a.key ∈ (S.take limit).map CacheEntry.key :=
      List.mem_map_of_mem _ ha
    have hnotin := hdisj _ hmem
    have hnotin' : a.key ∉ List.drop limit (List.map CacheEntry.key S) := by
      rw [← List.map_drop]; exact hnotin
    simp [hpdef, hnotin']
  have hfilter_drop : (S.drop limit).filter p = [] := by
    apply List.filter_eq_nil_iff.mpr
    intro a ha
    have hmem : a.key ∈ (S.drop limit).map CacheEntry.key :=
      List.mem_map_of_mem _ ha
    have hmem' : a.key ∈ List.drop limit (List.map CacheEntry.key S) := by
      rw [← List.map_drop]; exact hmem
    simp [hpdef, hmem']
  have hfS : S.filter p = S.take limit := by
    conv_lhs => rw [← List.take_append_drop limit S]
    rw [List.filter_append, hfilter_take, hfilter_drop, List.append_nil]
  have hfL : (L.filter p).Perm (S.take limit) := by
    rw [← hfS]
    exact (hperm.filter p).symm
  rw [hsave]
  refine ⟨?_, hfL, rfl, ?_, ?_⟩
  · rw [hfL.length_eq, List.length_take]
    exact min_le_left _ _
  · exact List.Pairwise.sublist (List.take_sublist _ _) hsorted
  · intro e he d hd
    have he' : e ∈ S.take limit := (hfL.mem_iff).mp he
    exact hsorted.rel_of_mem_take_of_mem_drop he' hd

/-- Claim C10, amended, witness: saving one file into an empty cache with
limit 3. -/
theorem C10_cache_limit_witness :
    (1 ≠ 0) ∧
    ((putAll ([] : List CacheEntry) (newEntries ["k"] 0 1)).map CacheEntry.key).Nodup ∧
    ((saveImagesToCacheWithKeys [] 1 ["k"] 0 3).1.length ≤ 3 ∧
     (saveImagesToCacheWithKeys [] 1 ["k"] 0 3).1.Perm
       ((sortNewestFirst (putAll [] (newEntries ["k"] 0 1))).take 3) ∧
     (saveImagesToCacheWithKeys [] 1 ["k"] 0 3).2
       = (sortNewestFirst (putAll [] (newEntries ["k"] 0 1))).take 3 ∧
     List.Sorted newerFirst (saveImagesToCacheWithKeys [] 1 ["k"] 0 3).2 ∧
     (∀ e ∈ (saveImagesToCacheWithKeys [] 1 ["k"] 0 3).1,
       ∀ d ∈ (sortNewestFirst (putAll [] (newEntries ["k"] 0 1))).drop 3,
         d.createdAt ≤ e.createdAt)) :=
  ⟨by decide, by decide, C10_cache_limit [] 1 ["k"] 0 3 (by decide) (by decide)⟩

end Tree

end
